import Mathlib

/-!
Shallow embedding of the LIV-Docs sandboxed interaction runtime
(`src/wasm/interactive-engine/src/lib.rs`) together with proofs that
settle the specification claims about it.

Modelling conventions, applied uniformly:

* Rust `f64` values are modelled as exact rationals (`ℚ`); every numeric
  literal occurring in the modelled source code is exactly representable.
* Rust `usize` / `u32` / `u16` counters are modelled as `ℕ` (the claims
  never approach the wrap-around range); `saturating_sub` corresponds to
  truncated `ℕ` subtraction.  `i32` is modelled as `ℤ`.
* `get_current_timestamp()` reads an ambient wall clock; it is modelled by
  an explicit `now : ℚ` (milliseconds) argument threaded to every
  operation that calls it.
* `Vec::push` is `· ++ [x]`; `HashMap` fields are modelled as association
  lists updated in insertion order.
* `Result<T, WASMError>` is `Except WASMError T`; a method that mutates
  `&mut self` returns the successor state alongside its result, and an
  early `return Err(..)` returns the state as mutated up to that point.
* Comparisons of the form `sqrt e < c` (with `c > 0` and `e ≥ 0`) in the
  source are encoded sqrt-free as `e < c ^ 2`, which is equivalent over
  the reals; this keeps every definition executable over `ℚ`.  Where a
  computed square root itself is stored in an output payload, `ratSqrt`
  below produces it exactly for perfect-square inputs.
* Fields of source structs that no modelled operation reads or writes
  (e.g. `serde_json` property bags, chart/vector rendering state) are
  carried as simplified payload types or omitted; each omission is noted
  at the structure concerned.
-/

/-- Typed error value (`WASMError` in the source): a stable string code plus
a human-readable message. -/
structure WASMError where
  code : String
  message : String
deriving Repr, DecidableEq

/-- Immutable permission record supplied at sandbox creation
(`WASMPermissions` in the source). -/
structure WASMPermissions where
  memory_limit : Nat
  allowed_imports : List String
  cpu_time_limit : Nat
  allow_networking : Bool
  allow_file_system : Bool
  allowed_interactions : List String
  max_data_size : Nat
  max_elements : Nat
deriving Repr, DecidableEq

/-- Derived resource ceilings (`ResourceLimits` in the source). -/
structure ResourceLimits where
  max_memory : Nat
  max_cpu_time : Nat
  max_interactions_per_second : Nat
  max_elements : Nat
deriving Repr, DecidableEq

/-- Running security state (`SecurityContext` in the source): the immutable
permissions and limits plus the mutable counters. -/
structure SecurityContext where
  permissions : WASMPermissions
  resource_limits : ResourceLimits
  allocated_memory : Nat
  interaction_count : Nat
  start_time : ℚ
deriving Repr, DecidableEq

/-- Constructor `SecurityContext::new`: limits are copied from the
permissions, `max_interactions_per_second` is the hard-coded default 100,
counters start at zero and `start_time` is the current wall clock. -/
def SecurityContext.new (permissions : WASMPermissions) (now : ℚ) :
    SecurityContext :=
  { permissions := permissions
    resource_limits :=
      { max_memory := permissions.memory_limit
        max_cpu_time := permissions.cpu_time_limit
        max_interactions_per_second := 100
        max_elements := permissions.max_elements }
    allocated_memory := 0
    interaction_count := 0
    start_time := now }

/-- Event kinds (`InteractionType` in the source). -/
inductive InteractionType where
  | Click | DoubleClick | MouseDown | MouseUp | MouseMove | MouseEnter
  | MouseLeave | Hover
  | TouchStart | TouchMove | TouchEnd | TouchCancel
  | Tap | DoubleTap | LongPress | Pinch | Rotate | Swipe | Pan
  | DragStart | Drag | DragEnd | Drop
  | Scroll | Wheel
  | KeyDown | KeyUp | KeyPress
  | Resize | Focus | Blur
  | DataUpdate | StateChange
deriving Repr, DecidableEq

/-- Rendering of `format!("{:?}", event_type)` for the derived `Debug`
implementation: the bare variant name. -/
def InteractionType.debugString : InteractionType → String
  | .Click => "Click" | .DoubleClick => "DoubleClick"
  | .MouseDown => "MouseDown" | .MouseUp => "MouseUp"
  | .MouseMove => "MouseMove" | .MouseEnter => "MouseEnter"
  | .MouseLeave => "MouseLeave" | .Hover => "Hover"
  | .TouchStart => "TouchStart" | .TouchMove => "TouchMove"
  | .TouchEnd => "TouchEnd" | .TouchCancel => "TouchCancel"
  | .Tap => "Tap" | .DoubleTap => "DoubleTap" | .LongPress => "LongPress"
  | .Pinch => "Pinch" | .Rotate => "Rotate" | .Swipe => "Swipe"
  | .Pan => "Pan"
  | .DragStart => "DragStart" | .Drag => "Drag" | .DragEnd => "DragEnd"
  | .Drop => "Drop"
  | .Scroll => "Scroll" | .Wheel => "Wheel"
  | .KeyDown => "KeyDown" | .KeyUp => "KeyUp" | .KeyPress => "KeyPress"
  | .Resize => "Resize" | .Focus => "Focus" | .Blur => "Blur"
  | .DataUpdate => "DataUpdate" | .StateChange => "StateChange"

/-- Planar point (`Position` in the source). -/
structure Position where
  x : ℚ
  y : ℚ
deriving Repr, DecidableEq

/-- Mouse buttons (`MouseButton` in the source). -/
inductive MouseButton where
  | None | Left | Middle | Right | Back | Forward
deriving Repr, DecidableEq

/-- Mouse payload (`MouseData` in the source). -/
structure MouseData where
  button : MouseButton
  buttons : Nat
  position : Position
  movement : Option Position
  wheel_delta : Option Position
deriving Repr, DecidableEq

/-- One touch point (`TouchPoint` in the source). -/
structure TouchPoint where
  identifier : Nat
  position : Position
  radius : Option ℚ
  rotation_angle : Option ℚ
  force : Option ℚ
deriving Repr, DecidableEq

/-- Touch payload (`TouchData` in the source). -/
structure TouchData where
  touches : List TouchPoint
  changed_touches : List TouchPoint
  target_touches : List TouchPoint
  force : Option ℚ
  rotation_angle : Option ℚ
  scale : Option ℚ
deriving Repr, DecidableEq

/-- Modifier flags (`EventModifiers` in the source). -/
structure EventModifiers where
  ctrl : Bool
  shift : Bool
  alt : Bool
  meta : Bool
deriving Repr, DecidableEq

/-- One interaction event (`InteractionEvent` in the source).  The
`keyboard_data`, `gesture_data` and free-form `data` payloads are not read
by any modelled operation and are omitted. -/
structure InteractionEvent where
  event_type : InteractionType
  target_element : Option String
  position : Option Position
  timestamp : ℚ
  touch_data : Option TouchData
  mouse_data : Option MouseData
  modifiers : EventModifiers
deriving Repr, DecidableEq

/-- Permission and rate check `SecurityContext::check_interaction_permission`.
The event kind (stringified via `Debug`) must be listed in
`allowed_interactions`, otherwise `INTERACTION_NOT_ALLOWED`.  Then the
counter is incremented and, when wall-clock time has elapsed since sandbox
start, the cumulative rate `interaction_count / (elapsed_ms / 1000)` is
compared against `max_interactions_per_second`; exceeding it yields
`INTERACTION_RATE_EXCEEDED` (with the increment already committed). -/
def SecurityContext.check_interaction_permission (ctx : SecurityContext)
    (event : InteractionEvent) (now : ℚ) :
    Except WASMError Unit × SecurityContext :=
  let interaction_type := event.event_type.debugString
  if interaction_type ∈ ctx.permissions.allowed_interactions then
    let ctx' := { ctx with interaction_count := ctx.interaction_count + 1 }
    let elapsed := now - ctx'.start_time
    if 0 < elapsed then
      let rate := (ctx'.interaction_count : ℚ) / (elapsed / 1000)
      if (ctx'.resource_limits.max_interactions_per_second : ℚ) < rate then
        (.error ⟨"INTERACTION_RATE_EXCEEDED",
                 "Too many interactions per second"⟩, ctx')
      else
        (.ok (), ctx')
    else
      (.ok (), ctx')
  else
    (.error ⟨"INTERACTION_NOT_ALLOWED",
             "Interaction type is not permitted"⟩, ctx)

/-- Memory accounting `SecurityContext::allocate_memory`: reject with
`MEMORY_LIMIT_EXCEEDED` when the new total would exceed `max_memory`,
otherwise commit the new total. -/
def SecurityContext.allocate_memory (ctx : SecurityContext) (size : Nat) :
    Except WASMError Unit × SecurityContext :=
  if ctx.resource_limits.max_memory < ctx.allocated_memory + size then
    (.error ⟨"MEMORY_LIMIT_EXCEEDED",
             "Memory allocation would exceed limit"⟩, ctx)
  else
    (.ok (), { ctx with allocated_memory := ctx.allocated_memory + size })

/-- Memory accounting `SecurityContext::deallocate_memory`: the source uses
`saturating_sub`, which is exactly truncated `ℕ` subtraction. -/
def SecurityContext.deallocate_memory (ctx : SecurityContext) (size : Nat) :
    SecurityContext :=
  { ctx with allocated_memory := ctx.allocated_memory - size }

/-- Permission check `SecurityContext::check_element_creation`.  Note that
the source consults only the `allowed_interactions` list; it never reads
`max_elements` or any element count. -/
def SecurityContext.check_element_creation (ctx : SecurityContext) :
    Except WASMError Unit :=
  if "create_element" ∈ ctx.permissions.allowed_interactions then
    .ok ()
  else
    .error ⟨"ELEMENT_CREATION_NOT_ALLOWED", "Element creation is not permitted"⟩

/-- One memory-accounting call on the security context. -/
inductive MemOp where
  | alloc (size : Nat)
  | dealloc (size : Nat)
deriving Repr, DecidableEq

/-- Folding a sequence of `allocate_memory` / `deallocate_memory` calls over
a security context (each call's returned state feeds the next call). -/
def runMemOps (ctx : SecurityContext) : List MemOp → SecurityContext
  | [] => ctx
  | .alloc s :: rest => runMemOps (ctx.allocate_memory s).2 rest
  | .dealloc s :: rest => runMemOps (ctx.deallocate_memory s) rest

lemma allocate_memory_le (ctx : SecurityContext) (size : Nat)
    (h : ctx.allocated_memory ≤ ctx.resource_limits.max_memory) :
    (ctx.allocate_memory size).2.allocated_memory ≤
      (ctx.allocate_memory size).2.resource_limits.max_memory := by
  unfold SecurityContext.allocate_memory
  split <;> simp_all

lemma runMemOps_limits (ctx : SecurityContext) (ops : List MemOp) :
    (runMemOps ctx ops).resource_limits = ctx.resource_limits := by
  induction ops generalizing ctx with
  | nil => rfl
  | cons op rest ih =>
    cases op with
    | alloc s =>
      rw [runMemOps, ih]
      unfold SecurityContext.allocate_memory
      split <;> rfl
    | dealloc s => rw [runMemOps, ih]; rfl

lemma runMemOps_invariant (ctx : SecurityContext) (ops : List MemOp)
    (h : ctx.allocated_memory ≤ ctx.resource_limits.max_memory) :
    (runMemOps ctx ops).allocated_memory ≤
      (runMemOps ctx ops).resource_limits.max_memory := by
  induction ops generalizing ctx with
  | nil => exact h
  | cons op rest ih =>
    cases op with
    | alloc s => exact ih _ (allocate_memory_le ctx s h)
    | dealloc s =>
      refine ih _ ?_
      unfold SecurityContext.deallocate_memory
      simp only
      omega

/-- Concrete permission record used by the witnesses below. -/
def demoPerms : WASMPermissions :=
  { memory_limit := 100
    allowed_imports := []
    cpu_time_limit := 5000
    allow_networking := false
    allow_file_system := false
    allowed_interactions := ["Click", "MouseMove", "create_element"]
    max_data_size := 1024
    max_elements := 3 }

/-- Concrete permitted click event used by the witnesses below. -/
def demoClickEvent : InteractionEvent :=
  { event_type := .Click
    target_element := some "element_1"
    position := none
    timestamp := 1000
    touch_data := none
    mouse_data := none
    modifiers := ⟨false, false, false, false⟩ }

/-- Concrete event whose kind is not in `demoPerms.allowed_interactions`. -/
def demoWheelEvent : InteractionEvent :=
  { demoClickEvent with event_type := .Wheel }

/-- C1: for every sequence of `allocate_memory` / `deallocate_memory` calls
on a freshly created `SecurityContext`, `allocated_memory` stays at or
below `resource_limits.max_memory` after every call; `allocate_memory`
returns `MEMORY_LIMIT_EXCEEDED` and leaves the context unchanged exactly
when `allocated + size > max_memory`, and otherwise commits the new total;
`deallocate_memory` performs saturating subtraction, so it never
underflows and clamps to zero. -/
theorem allocate_deallocate_invariant :
    (∀ (perms : WASMPermissions) (now : ℚ) (ops : List MemOp),
      (runMemOps (SecurityContext.new perms now) ops).allocated_memory ≤
        (runMemOps (SecurityContext.new perms now) ops).resource_limits.max_memory) ∧
    (∀ (ctx : SecurityContext) (size : Nat),
      ctx.resource_limits.max_memory < ctx.allocated_memory + size →
        ctx.allocate_memory size =
          (.error ⟨"MEMORY_LIMIT_EXCEEDED", "Memory allocation would exceed limit"⟩,
           ctx)) ∧
    (∀ (ctx : SecurityContext) (size : Nat),
      ctx.allocated_memory + size ≤ ctx.resource_limits.max_memory →
        ctx.allocate_memory size =
          (.ok (), { ctx with allocated_memory := ctx.allocated_memory + size })) ∧
    (∀ (ctx : SecurityContext) (size : Nat),
      (ctx.deallocate_memory size).allocated_memory =
        ctx.allocated_memory - size ∧
      (ctx.allocated_memory ≤ size →
        (ctx.deallocate_memory size).allocated_memory = 0)) := by
  refine ⟨fun perms now ops => runMemOps_invariant _ ops (by simp [SecurityContext.new]),
    fun ctx size h => ?_, fun ctx size h => ?_, fun ctx size => ⟨rfl, fun h => ?_⟩⟩
  · unfold SecurityContext.allocate_memory
    rw [if_pos h]
  · unfold SecurityContext.allocate_memory
    rw [if_neg (by omega)]
  · unfold SecurityContext.deallocate_memory
    simp only
    omega

/-- Witness instantiating the C1 theorem at concrete inputs. -/
theorem allocate_deallocate_invariant_witness :
    (runMemOps (SecurityContext.new demoPerms 0)
        [.alloc 60, .dealloc 30, .alloc 50]).allocated_memory ≤
      (runMemOps (SecurityContext.new demoPerms 0)
        [.alloc 60, .dealloc 30, .alloc 50]).resource_limits.max_memory ∧
    (SecurityContext.new demoPerms 0).allocate_memory 101 =
      (.error ⟨"MEMORY_LIMIT_EXCEEDED", "Memory allocation would exceed limit"⟩,
       SecurityContext.new demoPerms 0) ∧
    (SecurityContext.new demoPerms 0).allocate_memory 100 =
      (.ok (), { SecurityContext.new demoPerms 0 with
                  allocated_memory :=
                    (SecurityContext.new demoPerms 0).allocated_memory + 100 }) ∧
    ((SecurityContext.new demoPerms 0).deallocate_memory 7).allocated_memory = 0 :=
  ⟨allocate_deallocate_invariant.1 demoPerms 0 _,
   allocate_deallocate_invariant.2.1 _ 101 (by decide),
   allocate_deallocate_invariant.2.2.1 _ 100 (by decide),
   (allocate_deallocate_invariant.2.2.2 _ 7).2 (by decide)⟩

/-- C3: `check_interaction_permission` fails with `INTERACTION_NOT_ALLOWED`
(leaving the context unchanged) when the stringified event kind is not in
`allowed_interactions`; otherwise it increments `interaction_count`, its
result is either success or a rate rejection, and — once wall-clock time
has elapsed since sandbox start — it fails with
`INTERACTION_RATE_EXCEEDED` exactly when the cumulative rate
`interaction_count / (elapsed_ms / 1000)` exceeds
`max_interactions_per_second`; in particular a caller whose cumulative
rate stays at or below that limit is never rate-rejected. -/
theorem check_interaction_permission_spec (ctx : SecurityContext)
    (event : InteractionEvent) (now : ℚ) :
    (event.event_type.debugString ∉ ctx.permissions.allowed_interactions →
      ctx.check_interaction_permission event now =
        (.error ⟨"INTERACTION_NOT_ALLOWED", "Interaction type is not permitted"⟩,
         ctx)) ∧
    (event.event_type.debugString ∈ ctx.permissions.allowed_interactions →
      (ctx.check_interaction_permission event now).2.interaction_count =
          ctx.interaction_count + 1 ∧
      ((ctx.check_interaction_permission event now).1 = .ok () ∨
        (ctx.check_interaction_permission event now).1 =
          .error ⟨"INTERACTION_RATE_EXCEEDED", "Too many interactions per second"⟩) ∧
      (0 < now - ctx.start_time →
        ((ctx.check_interaction_permission event now).1 =
            .error ⟨"INTERACTION_RATE_EXCEEDED", "Too many interactions per second"⟩ ↔
          (ctx.resource_limits.max_interactions_per_second : ℚ) <
            ((ctx.interaction_count : ℚ) + 1) / ((now - ctx.start_time) / 1000))) ∧
      (now - ctx.start_time ≤ 0 →
        (ctx.check_interaction_permission event now).1 = .ok ())) := by
  unfold SecurityContext.check_interaction_permission
  by_cases hmem : event.event_type.debugString ∈ ctx.permissions.allowed_interactions
  · refine ⟨fun h => absurd hmem h, fun _ => ?_⟩
    simp only [if_pos hmem]
    by_cases helapsed : (0 : ℚ) < now - ctx.start_time
    · simp only [if_pos helapsed]
      by_cases hrate : (ctx.resource_limits.max_interactions_per_second : ℚ) <
          ((ctx.interaction_count : ℚ) + 1) / ((now - ctx.start_time) / 1000)
      · rw [if_pos (by push_cast; exact hrate)]
        refine ⟨rfl, .inr rfl, fun _ => ⟨fun _ => hrate, fun _ => rfl⟩, fun h => absurd helapsed (not_lt.mpr h)⟩
      · rw [if_neg (by push_cast; exact hrate)]
        exact ⟨rfl, .inl rfl, fun _ => ⟨fun h => by simp at h, fun h => absurd h hrate⟩,
          fun _ => rfl⟩
    · rw [if_neg helapsed]
      exact ⟨rfl, .inl rfl, fun h => absurd h helapsed, fun _ => rfl⟩
  · exact ⟨fun _ => by rw [if_neg hmem], fun h => absurd h hmem⟩

/-- Witness instantiating the C3 theorem at concrete inputs: a permitted
click one second after start increments the counter and is not
rate-rejected (rate 1/s vs limit 100/s); a wheel event outside the allowed
set is rejected with `INTERACTION_NOT_ALLOWED` and leaves the context
unchanged. -/
theorem check_interaction_permission_spec_witness :
    ((SecurityContext.new demoPerms 0).check_interaction_permission demoClickEvent
        1000).2.interaction_count =
      (SecurityContext.new demoPerms 0).interaction_count + 1 ∧
    (((SecurityContext.new demoPerms 0).check_interaction_permission demoClickEvent
          1000).1 =
        .error ⟨"INTERACTION_RATE_EXCEEDED", "Too many interactions per second"⟩ ↔
      (((SecurityContext.new demoPerms 0).resource_limits.max_interactions_per_second :
          ℚ) <
        (((SecurityContext.new demoPerms 0).interaction_count : ℚ) + 1) /
          ((1000 - (SecurityContext.new demoPerms 0).start_time) / 1000))) ∧
    (SecurityContext.new demoPerms 0).check_interaction_permission demoWheelEvent
        1000 =
      (.error ⟨"INTERACTION_NOT_ALLOWED", "Interaction type is not permitted"⟩,
       SecurityContext.new demoPerms 0) :=
  ⟨((check_interaction_permission_spec _ demoClickEvent 1000).2 (by decide)).1,
   ((check_interaction_permission_spec _ demoClickEvent 1000).2
       (by decide)).2.2.1 (by norm_num [SecurityContext.new]),
   (check_interaction_permission_spec _ demoWheelEvent 1000).1 (by decide)⟩

/-- Security context after 1000 accepted checks in the first second of a
sandbox created with `demoPerms` (a reachable state). -/
def demoRateCtx : SecurityContext :=
  { SecurityContext.new demoPerms 0 with interaction_count := 1000 }

lemma demoRateCtx_eval :
    demoRateCtx.check_interaction_permission demoClickEvent 1000 =
      (.error ⟨"INTERACTION_RATE_EXCEEDED", "Too many interactions per second"⟩,
       { demoRateCtx with interaction_count := 1001 }) := by
  norm_num [SecurityContext.check_interaction_permission, demoRateCtx,
    SecurityContext.new, demoPerms, demoClickEvent, InteractionType.debugString]

/-- Counterexample to C4: a rejected operation is not always atomic.  A
permitted click submitted at 1000 ms to a context holding 1000 prior
checks is rejected with `INTERACTION_RATE_EXCEEDED`, yet the returned
state differs from the state before the call: `interaction_count` was
incremented to 1001 before the rate check and the increment is kept. -/
theorem rate_reject_mutates_count :
    (demoRateCtx.check_interaction_permission demoClickEvent 1000).1 =
      .error ⟨"INTERACTION_RATE_EXCEEDED", "Too many interactions per second"⟩ ∧
    (demoRateCtx.check_interaction_permission demoClickEvent 1000).2 ≠
      demoRateCtx ∧
    (demoRateCtx.check_interaction_permission demoClickEvent 1000).2.interaction_count
      = 1001 := by
  refine ⟨by rw [demoRateCtx_eval], by rw [demoRateCtx_eval]; decide,
    by rw [demoRateCtx_eval]⟩

/-- C4 (amended): rejections commit no partial mutation except the rate
limiter's counter.  An `INTERACTION_NOT_ALLOWED` rejection and a
`MEMORY_LIMIT_EXCEEDED` rejection leave the security context exactly as it
was before the call; an `INTERACTION_RATE_EXCEEDED` rejection leaves the
context unchanged except for `interaction_count`, which retains the
increment performed before the rate check. -/
theorem rejection_atomicity_amended (ctx : SecurityContext)
    (event : InteractionEvent) (now : ℚ) (size : Nat) :
    (event.event_type.debugString ∉ ctx.permissions.allowed_interactions →
      (ctx.check_interaction_permission event now).2 = ctx) ∧
    (∀ e : WASMError,
      (ctx.check_interaction_permission event now).1 = .error e →
      e.code = "INTERACTION_RATE_EXCEEDED" →
      (ctx.check_interaction_permission event now).2 =
        { ctx with interaction_count := ctx.interaction_count + 1 }) ∧
    (∀ e : WASMError,
      (ctx.allocate_memory size).1 = .error e →
      (ctx.allocate_memory size).2 = ctx) := by
  refine ⟨fun h => ?_, fun e he hc => ?_, fun e he => ?_⟩
  · rw [((check_interaction_permission_spec ctx event now).1 h)]
  · unfold SecurityContext.check_interaction_permission at he ⊢
    by_cases hmem : event.event_type.debugString ∈ ctx.permissions.allowed_interactions
    · rw [if_pos hmem] at he ⊢
      by_cases helapsed : (0 : ℚ) < now - ctx.start_time
      · rw [if_pos helapsed] at he ⊢
        by_cases hrate : ((ctx.resource_limits.max_interactions_per_second : ℚ) <
            ((ctx.interaction_count + 1 : Nat) : ℚ) / ((now - ctx.start_time) / 1000))
        · rw [if_pos hrate]
        · rw [if_neg hrate] at he
          exact absurd he (by simp)
      · rw [if_neg helapsed] at he
        exact absurd he (by simp)
    · rw [if_neg hmem] at he
      injection he with he'
      rw [← he'] at hc
      exact absurd hc (by decide)
  · unfold SecurityContext.allocate_memory at he ⊢
    by_cases hmm : ctx.resource_limits.max_memory < ctx.allocated_memory + size
    · rw [if_pos hmm]
    · rw [if_neg hmm] at he
      exact absurd he (by simp)

/-- Witness instantiating the amended C4 theorem at concrete inputs. -/
theorem rejection_atomicity_amended_witness :
    ((SecurityContext.new demoPerms 0).check_interaction_permission demoWheelEvent
        1000).2 = SecurityContext.new demoPerms 0 ∧
    (demoRateCtx.check_interaction_permission demoClickEvent 1000).2 =
      { demoRateCtx with interaction_count := demoRateCtx.interaction_count + 1 } ∧
    ((SecurityContext.new demoPerms 0).allocate_memory 101).2 =
      SecurityContext.new demoPerms 0 :=
  ⟨(rejection_atomicity_amended _ demoWheelEvent 1000 0).1 (by decide),
   (rejection_atomicity_amended demoRateCtx demoClickEvent 1000 0).2.1
     ⟨"INTERACTION_RATE_EXCEEDED", "Too many interactions per second"⟩
     (by rw [demoRateCtx_eval]) rfl,
   (rejection_atomicity_amended _ demoClickEvent 1000 101).2.2
     ⟨"MEMORY_LIMIT_EXCEEDED", "Memory allocation would exceed limit"⟩
     (by rfl)⟩

/-- Easing kinds (`EasingFunction` in the source). -/
inductive EasingFunction where
  | Linear
  | EaseIn
  | EaseOut
  | EaseInOut
  | Cubic (x1 y1 x2 y2 : ℚ)
deriving Repr, DecidableEq

/-- Animation direction (`AnimationDirection` in the source). -/
inductive AnimationDirection where
  | Normal | Reverse | Alternate | AlternateReverse
deriving Repr, DecidableEq

/-- Animation kinds (`AnimationType` in the source). -/
inductive AnimationType where
  | Transform | Style | Path | Morph
deriving Repr, DecidableEq

/-- One keyframe (`Keyframe` in the source).  Property values are
`serde_json` values in the source; only their numeric payload is ever
interpolated, so they are modelled as rationals. -/
structure Keyframe where
  time : ℚ
  properties : List (String × ℚ)
deriving Repr, DecidableEq

/-- One animation (`Animation` in the source); `loop_count = -1` means
infinite looping. -/
structure Animation where
  id : String
  target_element : String
  animation_type : AnimationType
  duration : ℚ
  easing : EasingFunction
  keyframes : List Keyframe
  loop_count : Int
  direction : AnimationDirection
deriving Repr, DecidableEq

/-- Element kinds (`ElementType` in the source). -/
inductive ElementType where
  | Chart | Animation | Interactive | Vector | Text | Image | Container
deriving Repr, DecidableEq

/-- Geometric transform (`Transform` in the source). -/
structure Transform where
  x : ℚ
  y : ℚ
  scale_x : ℚ
  scale_y : ℚ
  rotation : ℚ
  opacity : ℚ
deriving Repr, DecidableEq

/-- Default transform (`Transform::default` in the source). -/
def Transform.default : Transform :=
  { x := 0, y := 0, scale_x := 1, scale_y := 1, rotation := 0, opacity := 1 }

/-- Shadow record (`Shadow` in the source); only its presence matters to
the modelled operations, but the numeric fields are kept. -/
structure Shadow where
  offset_x : ℚ
  offset_y : ℚ
  blur_radius : ℚ
deriving Repr, DecidableEq

/-- Element style (`ElementStyle` in the source). -/
structure ElementStyle where
  background_color : Option String
  border_color : Option String
  border_width : Option ℚ
  border_radius : Option ℚ
  shadow : Option Shadow
deriving Repr, DecidableEq

/-- One interactive element (`InteractiveElement` in the source).  The
`serde_json` property bag is modelled as a string-keyed association list of
strings (no modelled operation inspects the values), and `event_handlers`
carries handler ids. -/
structure InteractiveElement where
  id : String
  element_type : ElementType
  properties : List (String × String)
  children : List String
  event_handlers : List String
  transform : Transform
  style : ElementStyle
deriving Repr, DecidableEq

/-- Axis-aligned box (`BoundingBox` in the source). -/
structure BoundingBox where
  x : ℚ
  y : ℚ
  width : ℚ
  height : ℚ
deriving Repr, DecidableEq

/-- One render-tree node (`RenderNode` in the source).  `computed_style`
(derived wholesale from the element and never read by a modelled
operation) is omitted. -/
structure RenderNode where
  element_id : String
  parent : Option String
  children : List String
  bounds : BoundingBox
  visible : Bool
deriving Repr, DecidableEq

/-- Render tree (`RenderTree` in the source); `nodes` is a `HashMap`
modelled as an association list in insertion order. -/
structure RenderTree where
  root : String
  nodes : List (String × RenderNode)
  dirty_nodes : List String
deriving Repr, DecidableEq

/-- Default render tree (`RenderTree::default`): empty. -/
def RenderTree.default : RenderTree :=
  { root := "", nodes := [], dirty_nodes := [] }

/-- Viewport (`Viewport` in the source). -/
structure Viewport where
  width : ℚ
  height : ℚ
  scale : ℚ
  offset_x : ℚ
  offset_y : ℚ
deriving Repr, DecidableEq

/-- Default viewport (`Viewport::default` in the source): 1920 by 1080 at
scale 1. -/
def Viewport.default : Viewport :=
  { width := 1920, height := 1080, scale := 1, offset_x := 0, offset_y := 0 }

/-- Document state (`DocumentState` in the source).  `data_sources` is
never touched by a modelled operation and is omitted. -/
structure DocumentState where
  elements : List InteractiveElement
  animations : List Animation
  render_tree : RenderTree
  viewport : Viewport
deriving Repr, DecidableEq

/-- Default document state (`DocumentState::default` in the source). -/
def DocumentState.default : DocumentState :=
  { elements := []
    animations := []
    render_tree := RenderTree.default
    viewport := Viewport.default }

/-- Element insertion `DocumentState::add_element`: a duplicate id is
rejected with `ELEMENT_EXISTS` before any mutation; otherwise the element
is appended and a fresh render node is inserted and marked dirty. -/
def DocumentState.add_element (doc : DocumentState)
    (element : InteractiveElement) : Except WASMError Unit × DocumentState :=
  if doc.elements.any (fun e => e.id == element.id) then
    (.error ⟨"ELEMENT_EXISTS", "Element with this ID already exists"⟩, doc)
  else
    let render_node : RenderNode :=
      { element_id := element.id
        parent := none
        children := []
        bounds := { x := 0, y := 0, width := 0, height := 0 }
        visible := true }
    (.ok (),
     { doc with
        elements := doc.elements ++ [element]
        render_tree :=
          { doc.render_tree with
              nodes := doc.render_tree.nodes ++ [(element.id, render_node)]
              dirty_nodes := doc.render_tree.dirty_nodes ++ [element.id] } })

/-- Engine state (`InteractiveEngine` in the source) restricted to the
fields touched by element creation; the other components
(animation controller, interaction manager, gesture recognizer, responsive
adapter, caches and renderers) are modelled standalone below because no
claim crosses them with element creation. -/
structure InteractiveEngine where
  document_state : DocumentState
  security_context : SecurityContext
deriving Repr, DecidableEq

/-- Constructor `InteractiveEngine::new`. -/
def InteractiveEngine.new (permissions : WASMPermissions) (now : ℚ) :
    InteractiveEngine :=
  { document_state := DocumentState.default
    security_context := SecurityContext.new permissions now }

/-- Element creation `InteractiveEngine::create_element`: checks the
creation permission, derives the id from the wall clock truncated to whole
milliseconds (`format!("element_{}", get_current_timestamp() as u64)` in
the source; the `as u64` cast of a negative clock saturates to 0, matching
`Int.toNat`), builds the element with default transform and empty style,
and inserts it through `DocumentState::add_element`. -/
def InteractiveEngine.create_element (eng : InteractiveEngine)
    (element_type : ElementType) (properties : List (String × String))
    (now : ℚ) : Except WASMError String × InteractiveEngine :=
  match eng.security_context.check_element_creation with
  | .error e => (.error e, eng)
  | .ok () =>
    let element_id := "element_" ++ toString (Rat.floor now).toNat
    let element : InteractiveElement :=
      { id := element_id
        element_type := element_type
        properties := properties
        children := []
        event_handlers := []
        transform := Transform.default
        style := { background_color := none, border_color := none,
                   border_width := none, border_radius := none, shadow := none } }
    let res := eng.document_state.add_element element
    match res.1 with
    | .error e => (.error e, { eng with document_state := res.2 })
    | .ok () => (.ok element_id, { eng with document_state := res.2 })

/-- Folding a sequence of `create_element` calls (as the element-cap test
`test_element_count_limit_enforcement` does in a loop), one call per given
wall-clock timestamp. -/
def runCreateElements (eng : InteractiveEngine) :
    List ℚ → List (Except WASMError String) × InteractiveEngine
  | [] => ([], eng)
  | t :: ts =>
    let res := eng.create_element .Container [] t
    let rest := runCreateElements res.2 ts
    (res.1 :: rest.1, rest.2)

/-- C2 as the code actually behaves (the claim is a code bug): under
`demoPerms` — `max_elements = 3`, `create_element` permitted, memory
otherwise untouched — four `create_element` calls at distinct wall-clock
milliseconds all succeed.  `check_element_creation` consults only the
`allowed_interactions` list and never the element count, so the element
cap is not enforced: the element-cap scenario (exactly 3 successes, a
resource-exceeded error on the 4th call) and the repository's own test
`test_element_count_limit_enforcement` are violated by the code. -/
theorem element_cap_not_enforced :
    (runCreateElements (InteractiveEngine.new demoPerms 0) [1, 2, 3, 4]).1 =
      [.ok "element_1", .ok "element_2", .ok "element_3", .ok "element_4"] ∧
    (runCreateElements (InteractiveEngine.new demoPerms 0)
        [1, 2, 3, 4]).2.document_state.elements.length = 4 ∧
    demoPerms.max_elements = 3 := by
  exact ⟨by rfl, by rfl, rfl⟩

lemma add_element_dup_state (doc : DocumentState) (el : InteractiveElement)
    (h : doc.elements.any (fun e => e.id == el.id) = true) :
    doc.add_element el =
      (.error ⟨"ELEMENT_EXISTS", "Element with this ID already exists"⟩, doc) := by
  unfold DocumentState.add_element
  rw [if_pos h]

lemma add_element_ok_state (doc : DocumentState) (el : InteractiveElement)
    (h : (doc.add_element el).1 = .ok ()) :
    (doc.add_element el).2.elements = doc.elements ++ [el] := by
  by_cases hdup : doc.elements.any (fun e => e.id == el.id) = true
  · rw [add_element_dup_state doc el hdup] at h
    simp at h
  · unfold DocumentState.add_element
    rw [if_neg hdup]


/-- Element literal constructed inside `InteractiveEngine::create_element`
(named here so that lemmas can refer to it; `create_element` builds exactly
this record). -/
def freshElement (element_type : ElementType)
    (properties : List (String × String)) (now : ℚ) : InteractiveElement :=
  { id := "element_" ++ toString (Rat.floor now).toNat
    element_type := element_type
    properties := properties
    children := []
    event_handlers := []
    transform := Transform.default
    style := { background_color := none, border_color := none,
               border_width := none, border_radius := none, shadow := none } }

lemma create_element_eq (eng : InteractiveEngine) (et : ElementType)
    (props : List (String × String)) (now : ℚ) :
    eng.create_element et props now =
      match eng.security_context.check_element_creation with
      | .error e => (.error e, eng)
      | .ok _ =>
        match (eng.document_state.add_element (freshElement et props now)).1 with
        | .error e =>
          (.error e,
           { eng with document_state :=
              (eng.document_state.add_element (freshElement et props now)).2 })
        | .ok _ =>
          (.ok (freshElement et props now).id,
           { eng with document_state :=
              (eng.document_state.add_element (freshElement et props now)).2 }) := by
  unfold InteractiveEngine.create_element freshElement
  cases eng.security_context.check_element_creation with
  | error e => rfl
  | ok u => cases u; rfl

/-- C10: `create_element` derives the new element id solely from the wall
clock truncated to whole milliseconds, so a second successful-permission
call within the same millisecond collides: it fails with `ELEMENT_EXISTS`
and leaves the whole engine state — element list and render tree included
— exactly as the first call left it. -/
theorem same_timestamp_element_exists (eng : InteractiveEngine)
    (et1 et2 : ElementType) (props1 props2 : List (String × String))
    (now : ℚ) (id : String)
    (h : (eng.create_element et1 props1 now).1 = .ok id) :
    id = "element_" ++ toString (Rat.floor now).toNat ∧
    (eng.create_element et1 props1 now).2.create_element et2 props2 now =
      (.error ⟨"ELEMENT_EXISTS", "Element with this ID already exists"⟩,
       (eng.create_element et1 props1 now).2) := by
  rw [create_element_eq] at h
  cases hperm : eng.security_context.check_element_creation with
  | error e =>
    rw [hperm] at h
    exact absurd h (by simp)
  | ok u =>
    cases u
    rw [hperm] at h
    cases hadd : (eng.document_state.add_element (freshElement et1 props1 now)).1 with
    | error e =>
      rw [hadd] at h
      exact absurd h (by simp)
    | ok v =>
      cases v
      rw [hadd] at h
      simp only [Except.ok.injEq] at h
      refine ⟨h.symm, ?_⟩
      have heng1 : (eng.create_element et1 props1 now).2 =
          { eng with document_state :=
              (eng.document_state.add_element (freshElement et1 props1 now)).2 } := by
        rw [create_element_eq, hperm, hadd]
      rw [heng1, create_element_eq]
      have hperm2 :
          ({ eng with document_state :=
              (eng.document_state.add_element (freshElement et1 props1 now)).2 } :
            InteractiveEngine).security_context.check_element_creation =
            Except.ok () := hperm
      rw [hperm2]
      have hany :
          ((eng.document_state.add_element (freshElement et1 props1 now)).2.elements.any
            (fun e => e.id == (freshElement et2 props2 now).id)) = true := by
        rw [add_element_ok_state _ _ (by rw [hadd])]
        simp [freshElement]
      rw [add_element_dup_state _ _ hany]

/-- Witness instantiating the C10 theorem: on a fresh engine two calls in
the same millisecond (wall clock 5 ms) collide on id `element_5`. -/
theorem same_timestamp_element_exists_witness :
    ("element_5" : String) = "element_" ++ toString (Rat.floor (5 : ℚ)).toNat ∧
    ((InteractiveEngine.new demoPerms 0).create_element .Container []
        5).2.create_element .Text [] 5 =
      (.error ⟨"ELEMENT_EXISTS", "Element with this ID already exists"⟩,
       ((InteractiveEngine.new demoPerms 0).create_element .Container [] 5).2) :=
  same_timestamp_element_exists (InteractiveEngine.new demoPerms 0) .Container
    .Text [] [] 5 "element_5" (by rfl)

/-- Easing application `apply_easing` in the source: Linear is the
identity, EaseIn squares, EaseOut is the reflected square, EaseInOut is
piecewise-quadratic around the midpoint, and Cubic is the source's
simplified Bernstein-polynomial approximation (the control-point
x-coordinates are ignored). -/
def apply_easing (progress : ℚ) : EasingFunction → ℚ
  | .Linear => progress
  | .EaseIn => progress * progress
  | .EaseOut => 1 - (1 - progress) * (1 - progress)
  | .EaseInOut =>
      if progress < 1/2 then 2 * progress * progress
      else 1 - 2 * (1 - progress) * (1 - progress)
  | .Cubic _ y1 _ y2 =>
      let t := progress
      let t2 := t * t
      let t3 := t2 * t
      let mt := 1 - t
      let mt2 := mt * mt
      let mt3 := mt2 * mt
      mt3 * 0 + 3 * mt2 * t * y1 + 3 * mt * t2 * y2 + t3 * 1

/-- Easing kinds other than the Cubic approximation. -/
def EasingFunction.isStandard : EasingFunction → Bool
  | .Cubic _ _ _ _ => false
  | _ => true

/-- One registered animation (`ActiveAnimation` in the source): the
animation plus its wall-clock start and completed-iteration count. -/
structure ActiveAnimation where
  animation : Animation
  start_time : ℚ
  current_iteration : Int
deriving Repr, DecidableEq

/-- Per-animation body of `AnimationController::update_animations`: one
tick at `timestamp` yields the eased progress pushed into that tick's
change record, together with the animation's continuation — `some` of the
(possibly restarted) state, or `none` when the animation completed and is
to be removed.  Keyframe value interpolation (`interpolate_keyframes`) is
omitted: no claim refers to the interpolated values. -/
def ActiveAnimation.tick (a : ActiveAnimation) (timestamp : ℚ) :
    ℚ × Option ActiveAnimation :=
  let elapsed := timestamp - a.start_time
  let progress := min (elapsed / a.animation.duration) 1
  let eased_progress := apply_easing progress a.animation.easing
  if 1 ≤ progress then
    let a' := { a with current_iteration := a.current_iteration + 1 }
    if a'.animation.loop_count = -1 ∨
        a'.current_iteration < a'.animation.loop_count then
      (eased_progress, some { a' with start_time := timestamp })
    else
      (eased_progress, none)
  else
    (eased_progress, some a)

/-- Animation registry (`AnimationController` in the source); the
`HashMap` keyed by animation id is an association list with unique keys. -/
structure AnimationController where
  active_animations : List (String × ActiveAnimation)
deriving Repr, DecidableEq

/-- Registration `AnimationController::start_animation`: `HashMap::insert`
keyed by the animation's id (any previous entry under that id is
replaced), wall-clock start now, iteration count 0. -/
def AnimationController.start_animation (c : AnimationController)
    (animation : Animation) (now : ℚ) : AnimationController :=
  ⟨(c.active_animations.filter (fun p => p.1 ≠ animation.id)) ++
    [(animation.id,
      { animation := animation, start_time := now, current_iteration := 0 })]⟩

/-- Removal `AnimationController::stop_animation`: unconditional. -/
def AnimationController.stop_animation (c : AnimationController)
    (animation_id : String) : AnimationController :=
  ⟨c.active_animations.filter (fun p => p.1 ≠ animation_id)⟩

/-- Frame advance `AnimationController::update_animations`: every active
animation yields one change record carrying its eased progress, then the
animations marked completed are removed from the active set. -/
def AnimationController.update_animations (c : AnimationController)
    (timestamp : ℚ) : List (String × ℚ) × AnimationController :=
  let results := c.active_animations.map (fun p => (p.1, p.2.tick timestamp))
  (results.map (fun p => (p.1, p.2.1)),
   ⟨results.filterMap (fun p => (p.2.2).map (fun a => (p.1, a)))⟩)

lemma tick_fst (a : ActiveAnimation) (t : ℚ) :
    (a.tick t).1 =
      apply_easing (min ((t - a.start_time) / a.animation.duration) 1)
        a.animation.easing := by
  unfold ActiveAnimation.tick
  dsimp only
  split_ifs with h1 h2 <;> rfl

lemma apply_easing_mono (e : EasingFunction) (he : e.isStandard = true)
    (p q : ℚ) (h0 : 0 ≤ p) (hpq : p ≤ q) (h1 : q ≤ 1) :
    apply_easing p e ≤ apply_easing q e := by
  cases e with
  | Linear => simpa [apply_easing] using hpq
  | EaseIn =>
    simp only [apply_easing]
    nlinarith
  | EaseOut =>
    simp only [apply_easing]
    nlinarith
  | EaseInOut =>
    simp only [apply_easing]
    split_ifs with hp hq hq
    · nlinarith
    · nlinarith
    · nlinarith
    · nlinarith
  | Cubic x1 y1 x2 y2 => simp [EasingFunction.isStandard] at he

/-- C5 (amended): for every animation with positive duration and a
standard easing (Linear, EaseIn, EaseOut, EaseInOut — the Cubic
approximation can decrease), the eased progress reported by successive
ticks at non-decreasing timestamps at or after the start time is
non-decreasing; when raw progress reaches 1 the animation restarts (start
time reset to the current timestamp, iteration incremented) precisely when
`loop_count = -1` or the incremented iteration count is below
`loop_count`, and otherwise — in particular for `loop_count = 1` on its
first completion — it is dropped from the active set. -/
theorem animation_progress_spec :
    (∀ (a : ActiveAnimation) (t1 t2 : ℚ),
      a.animation.easing.isStandard = true →
      0 < a.animation.duration →
      a.start_time ≤ t1 → t1 ≤ t2 →
      (a.tick t1).1 ≤ (a.tick t2).1) ∧
    (∀ (a : ActiveAnimation) (t : ℚ),
      0 < a.animation.duration →
      a.animation.duration ≤ t - a.start_time →
      ((a.animation.loop_count = -1 ∨
          a.current_iteration + 1 < a.animation.loop_count) →
        (a.tick t).2 = some { a with
          start_time := t,
          current_iteration := a.current_iteration + 1 }) ∧
      (¬(a.animation.loop_count = -1 ∨
          a.current_iteration + 1 < a.animation.loop_count) →
        (a.tick t).2 = none)) ∧
    (∀ (a : ActiveAnimation) (t : ℚ),
      0 < a.animation.duration →
      a.animation.duration ≤ t - a.start_time →
      a.animation.loop_count = 1 →
      a.current_iteration = 0 →
      (a.tick t).2 = none) := by
  have hprog : ∀ (a : ActiveAnimation) (t : ℚ),
      0 < a.animation.duration → a.animation.duration ≤ t - a.start_time →
      (1 : ℚ) ≤ min ((t - a.start_time) / a.animation.duration) 1 := by
    intro a t hd ht
    refine le_min ?_ le_rfl
    rw [le_div_iff hd]
    linarith
  have htick2 : ∀ (a : ActiveAnimation) (t : ℚ),
      0 < a.animation.duration → a.animation.duration ≤ t - a.start_time →
      ((a.animation.loop_count = -1 ∨
          a.current_iteration + 1 < a.animation.loop_count) →
        (a.tick t).2 = some { a with
          start_time := t,
          current_iteration := a.current_iteration + 1 }) ∧
      (¬(a.animation.loop_count = -1 ∨
          a.current_iteration + 1 < a.animation.loop_count) →
        (a.tick t).2 = none) := by
    intro a t hd ht
    constructor <;> intro hloop <;>
      · unfold ActiveAnimation.tick
        dsimp only
        rw [if_pos (hprog a t hd ht)]
        first
        | rw [if_pos hloop]
        | rw [if_neg hloop]
  refine ⟨?_, htick2, ?_⟩
  · intro a t1 t2 he hd h1 h12
    rw [tick_fst, tick_fst]
    have hp0 : (0 : ℚ) ≤ min ((t1 - a.start_time) / a.animation.duration) 1 :=
      le_min (div_nonneg (by linarith) hd.le) (by norm_num)
    have hpq : min ((t1 - a.start_time) / a.animation.duration) 1 ≤
        min ((t2 - a.start_time) / a.animation.duration) 1 :=
      min_le_min ((div_le_div_right hd).mpr (by linarith)) le_rfl
    exact apply_easing_mono _ he _ _ hp0 hpq (min_le_right _ _)
  · intro a t hd ht hloop hiter
    refine ((htick2 a t hd ht).2 ?_)
    rw [hloop, hiter]
    norm_num

/-- Controller holding one 1000 ms animation with the source's Cubic
easing at control points (0, 2, 0, 0) and `loop_count = 1`, started at
wall clock 0. -/
def demoCubicController : AnimationController :=
  ⟨[("anim_1",
     { animation :=
         { id := "anim_1"
           target_element := "element_1"
           animation_type := .Transform
           duration := 1000
           easing := .Cubic 0 2 0 0
           keyframes := []
           loop_count := 1
           direction := .Normal }
       start_time := 0
       current_iteration := 0 })]⟩

/-- Counterexample to C5 as stated: a 1000 ms animation sampled by
`update_animations` at the strictly increasing timestamps 500 then 600 —
both before raw progress reaches 1 — reports eased progress 7/8 and then
99/125, which decreases.  The source's Cubic easing approximation is not
monotone, so eased progress can decrease before progress reaches 1. -/
theorem cubic_easing_nonmonotone :
    (demoCubicController.update_animations 500).1 = [("anim_1", 7/8)] ∧
    ((demoCubicController.update_animations 500).2.update_animations 600).1 =
      [("anim_1", 99/125)] ∧
    (99 : ℚ)/125 < 7/8 := by
  have h500 : demoCubicController.update_animations 500 =
      ([("anim_1", 7/8)], demoCubicController) := by
    norm_num [AnimationController.update_animations, ActiveAnimation.tick,
      apply_easing, demoCubicController, min_def, List.filterMap_cons]
  refine ⟨by rw [h500], ?_, by norm_num⟩
  rw [h500]
  norm_num [AnimationController.update_animations, ActiveAnimation.tick,
    apply_easing, demoCubicController, min_def]

/-- Registered 1000 ms Linear animation, started at wall clock 0, with one
iteration. -/
def demoLinearAnim : ActiveAnimation :=
  { animation :=
      { id := "anim_2"
        target_element := "element_1"
        animation_type := .Style
        duration := 1000
        easing := .Linear
        keyframes := []
        loop_count := 1
        direction := .Normal }
    start_time := 0
    current_iteration := 0 }

/-- Same animation with infinite looping (`loop_count = -1`). -/
def demoLoopAnim : ActiveAnimation :=
  { demoLinearAnim with
      animation := { demoLinearAnim.animation with loop_count := -1 } }

/-- Witness instantiating the amended C5 theorem at concrete inputs:
eased progress at 200 ms is at most the one at 300 ms; the one-shot
animation is removed once raw progress reaches 1; the infinite animation
restarts at the current timestamp with its iteration count incremented. -/
theorem animation_progress_spec_witness :
    (demoLinearAnim.tick 200).1 ≤ (demoLinearAnim.tick 300).1 ∧
    (demoLinearAnim.tick 1000).2 = none ∧
    (demoLoopAnim.tick 1000).2 =
      some { demoLoopAnim with
              start_time := 1000,
              current_iteration := demoLoopAnim.current_iteration + 1 } :=
  ⟨animation_progress_spec.1 demoLinearAnim 200 300 rfl
      (by norm_num [demoLinearAnim]) (by norm_num [demoLinearAnim]) (by norm_num),
   animation_progress_spec.2.2 demoLinearAnim 1000
      (by norm_num [demoLinearAnim]) (by norm_num [demoLinearAnim]) rfl rfl,
   (animation_progress_spec.2.1 demoLoopAnim 1000
      (by norm_num [demoLoopAnim, demoLinearAnim])
      (by norm_num [demoLoopAnim, demoLinearAnim])).1 (Or.inl rfl)⟩

/-- Device classes (`DeviceType` in the source). -/
inductive DeviceType where
  | Desktop | Tablet | Mobile | TV | Watch | Unknown
deriving Repr, DecidableEq

/-- Planar extent (`Size` in the source). -/
structure Size where
  width : ℚ
  height : ℚ
deriving Repr, DecidableEq

/-- Device facts (`DeviceInfo` in the source). -/
structure DeviceInfo where
  device_type : DeviceType
  screen_size : Size
  pixel_density : ℚ
  touch_support : Bool
  mouse_support : Bool
  keyboard_support : Bool
  max_touch_points : Nat
  has_force_touch : Bool
  has_hover_support : Bool
deriving Repr, DecidableEq

/-- Default device info (`DeviceInfo::default` in the source). -/
def DeviceInfo.default : DeviceInfo :=
  { device_type := .Desktop
    screen_size := { width := 1920, height := 1080 }
    pixel_density := 1
    touch_support := false
    mouse_support := true
    keyboard_support := true
    max_touch_points := 0
    has_force_touch := false
    has_hover_support := true }

/-- Device-dependent interaction tuning (`InteractionSettings` in the
source). -/
structure InteractionSettings where
  touch_target_size : ℚ
  tap_timeout : ℚ
  double_tap_timeout : ℚ
  long_press_timeout : ℚ
  drag_threshold : ℚ
  scroll_sensitivity : ℚ
  gesture_sensitivity : ℚ
  hover_delay : ℚ
deriving Repr, DecidableEq

/-- Default interaction settings (`InteractionSettings::default` in the
source). -/
def InteractionSettings.default : InteractionSettings :=
  { touch_target_size := 44
    tap_timeout := 300
    double_tap_timeout := 500
    long_press_timeout := 500
    drag_threshold := 10
    scroll_sensitivity := 1
    gesture_sensitivity := 1
    hover_delay := 200 }

/-- Device adapter (`ResponsiveAdapter` in the source) restricted to the
fields C6 inspects; the performance profile and adaptive thresholds it
also recomputes are not modelled because no claim reads them. -/
structure ResponsiveAdapter where
  device_info : DeviceInfo
  interaction_settings : InteractionSettings
deriving Repr, DecidableEq

/-- Constructor `ResponsiveAdapter::new`: all tables at their defaults. -/
def ResponsiveAdapter.new : ResponsiveAdapter :=
  { device_info := DeviceInfo.default
    interaction_settings := InteractionSettings.default }

/-- Settings table rewrite `ResponsiveAdapter::adapt_interaction_settings`:
a full per-device-class reassignment; classes other than Mobile, Tablet
and Desktop keep the current settings. -/
def ResponsiveAdapter.adapt_interaction_settings (r : ResponsiveAdapter) :
    ResponsiveAdapter :=
  match r.device_info.device_type with
  | .Mobile =>
    { r with interaction_settings :=
        { touch_target_size := 44
          tap_timeout := 300
          double_tap_timeout := 500
          long_press_timeout := 500
          drag_threshold := 10
          scroll_sensitivity := 1
          gesture_sensitivity := 1
          hover_delay := 0 } }
  | .Tablet =>
    { r with interaction_settings :=
        { touch_target_size := 48
          tap_timeout := 250
          double_tap_timeout := 400
          long_press_timeout := 600
          drag_threshold := 8
          scroll_sensitivity := 4/5
          gesture_sensitivity := 6/5
          hover_delay := 100 } }
  | .Desktop =>
    { r with interaction_settings :=
        { touch_target_size := 32
          tap_timeout := 200
          double_tap_timeout := 300
          long_press_timeout := 800
          drag_threshold := 5
          scroll_sensitivity := 3/5
          gesture_sensitivity := 4/5
          hover_delay := 200 } }
  | _ => r

/-- Device classification and settings rewrite
`ResponsiveAdapter::initialize_device_detection`: records the viewport as
the screen size, classifies the device from the viewport diagonal
(`sqrt(w^2 + h^2) < 600` → Mobile, `< 1200` → Tablet, else Desktop — the
square-root comparisons are encoded sqrt-free as `w^2 + h^2 < 600^2`
etc., which is equivalent since both sides are nonnegative), then rewrites
the dependent interaction settings in full. -/
def ResponsiveAdapter.initialize_device_detection (r : ResponsiveAdapter)
    (viewport : Viewport) : ResponsiveAdapter :=
  let r := { r with device_info :=
    { r.device_info with
        screen_size := { width := viewport.width, height := viewport.height } } }
  let diagonal_sq := viewport.width ^ 2 + viewport.height ^ 2
  let r := { r with device_info :=
    { r.device_info with device_type :=
        if diagonal_sq < 600 ^ 2 then DeviceType.Mobile
        else if diagonal_sq < 1200 ^ 2 then DeviceType.Tablet
        else DeviceType.Desktop } }
  r.adapt_interaction_settings

/-- Viewport literal of a given width and height at scale 1. -/
def mkViewport (w h : ℚ) : Viewport :=
  { width := w, height := h, scale := 1, offset_x := 0, offset_y := 0 }

/-- Counterexample to C6 as stated: a 375 by 667 viewport has diagonal
about 765 (its square, 585514, is at least 600^2 = 360000 and below
1200^2), so the code's own rule classifies it as Tablet with touch target
48 — not Mobile with touch target 44 as the claim's scenario says. -/
theorem viewport_375x667_is_tablet :
    (ResponsiveAdapter.new.initialize_device_detection
        (mkViewport 375 667)).device_info.device_type = .Tablet ∧
    (ResponsiveAdapter.new.initialize_device_detection
        (mkViewport 375 667)).interaction_settings.touch_target_size = 48 ∧
    (ResponsiveAdapter.new.initialize_device_detection
        (mkViewport 375 667)).device_info.device_type ≠ .Mobile := by
  have h : ResponsiveAdapter.new.initialize_device_detection
      (mkViewport 375 667) =
      { device_info :=
          { DeviceInfo.default with
              device_type := .Tablet
              screen_size := { width := 375, height := 667 } }
        interaction_settings :=
          { touch_target_size := 48
            tap_timeout := 250
            double_tap_timeout := 400
            long_press_timeout := 600
            drag_threshold := 8
            scroll_sensitivity := 4/5
            gesture_sensitivity := 6/5
            hover_delay := 100 } } := by
    norm_num [ResponsiveAdapter.initialize_device_detection,
      ResponsiveAdapter.adapt_interaction_settings, ResponsiveAdapter.new,
      mkViewport, DeviceInfo.default, InteractionSettings.default]
  rw [h]
  refine ⟨rfl, rfl, by decide⟩

/-- C6 (amended): `initialize_device_detection` classifies purely from the
viewport diagonal — diagonal < 600 yields Mobile with touch target 44,
diagonal in [600, 1200) yields Tablet with touch target 48, and diagonal
at least 1200 yields Desktop with touch target 32 — and recomputes the
dependent interaction settings; a 375 by 667 viewport (diagonal about 765)
therefore yields Tablet with touch target 48, and a 1920 by 1080 viewport
(diagonal about 2203) yields Desktop with touch target 32. -/
theorem device_classification_spec :
    (∀ (r : ResponsiveAdapter) (v : Viewport),
      (v.width ^ 2 + v.height ^ 2 < 600 ^ 2 →
        (r.initialize_device_detection v).device_info.device_type = .Mobile ∧
        (r.initialize_device_detection
            v).interaction_settings.touch_target_size = 44) ∧
      (600 ^ 2 ≤ v.width ^ 2 + v.height ^ 2 →
        v.width ^ 2 + v.height ^ 2 < 1200 ^ 2 →
        (r.initialize_device_detection v).device_info.device_type = .Tablet ∧
        (r.initialize_device_detection
            v).interaction_settings.touch_target_size = 48) ∧
      (1200 ^ 2 ≤ v.width ^ 2 + v.height ^ 2 →
        (r.initialize_device_detection v).device_info.device_type = .Desktop ∧
        (r.initialize_device_detection
            v).interaction_settings.touch_target_size = 32)) ∧
    (ResponsiveAdapter.new.initialize_device_detection
        (mkViewport 375 667)).device_info.device_type = .Tablet ∧
    (ResponsiveAdapter.new.initialize_device_detection
        (mkViewport 375 667)).interaction_settings.touch_target_size = 48 ∧
    (ResponsiveAdapter.new.initialize_device_detection
        (mkViewport 1920 1080)).device_info.device_type = .Desktop ∧
    (ResponsiveAdapter.new.initialize_device_detection
        (mkViewport 1920 1080)).interaction_settings.touch_target_size = 32 := by
  constructor
  · intro r v
    refine ⟨fun h1 => ?_, fun h2 h3 => ?_, fun h4 => ?_⟩ <;>
      · unfold ResponsiveAdapter.initialize_device_detection
          ResponsiveAdapter.adapt_interaction_settings
        dsimp only
        split_ifs <;> first | (exact ⟨rfl, rfl⟩) | linarith
  · refine ⟨?_, ?_, ?_, ?_⟩ <;>
      norm_num [ResponsiveAdapter.initialize_device_detection,
        ResponsiveAdapter.adapt_interaction_settings, ResponsiveAdapter.new,
        mkViewport, DeviceInfo.default, InteractionSettings.default]

/-- Witness instantiating the amended C6 theorem: a 300 by 400 viewport
(diagonal exactly 500 < 600) classifies as Mobile with touch target 44,
and the Tablet instance for 375 by 667 follows from the closed conjunct. -/
theorem device_classification_spec_witness :
    (ResponsiveAdapter.new.initialize_device_detection
        (mkViewport 300 400)).device_info.device_type = .Mobile ∧
    (ResponsiveAdapter.new.initialize_device_detection
        (mkViewport 300 400)).interaction_settings.touch_target_size = 44 ∧
    (ResponsiveAdapter.new.initialize_device_detection
        (mkViewport 375 667)).device_info.device_type = .Tablet :=
  ⟨((device_classification_spec.1 ResponsiveAdapter.new
      (mkViewport 300 400)).1 (by norm_num [mkViewport])).1,
   ((device_classification_spec.1 ResponsiveAdapter.new
      (mkViewport 300 400)).1 (by norm_num [mkViewport])).2,
   device_classification_spec.2.1⟩

/-- Per-element lifecycle tags (`InteractionStateType` in the source). -/
inductive InteractionStateType where
  | Idle | Hover | Active | Pressed | Dragging | Focused | Disabled
deriving Repr, DecidableEq

/-- Per-element interaction state (`InteractionState` in the source); the
free-form `properties` bag (always created empty by
`set_interaction_state`) is omitted. -/
structure InteractionState where
  element_id : String
  state_type : InteractionStateType
  start_time : ℚ
  last_update : ℚ
deriving Repr, DecidableEq

/-- Process-wide mouse record (`MouseState` in the source). -/
structure MouseState where
  position : Position
  buttons : Nat
  last_click_time : ℚ
  click_count : Nat
  target_element : Option String
  dragging : Bool
  drag_start_position : Option Position
deriving Repr, DecidableEq

/-- Response kinds (`ResponseType` in the source). -/
inductive ResponseType where
  | EventProcessed | StateChanged | Click | DoubleClick
  | TouchStart | TouchMove | TouchEnd | Tap
  | DragStart | Drag | DragEnd
  | KeyDown | KeyUp | KeyPress
  | Gesture | Scroll | FocusChanged | Resize | Delegated
deriving Repr, DecidableEq

/-- Payload value inside a response's `serde_json` data bag; only the
shapes the modelled handlers emit are represented. -/
inductive ResponseValue where
  | str (s : String)
  | num (q : ℚ)
  | pos (p : Position)
  | optPos (p : Option Position)
deriving Repr, DecidableEq

/-- One handler response (`InteractionResponse` in the source); the
wall-clock `timestamp` that `InteractionResponse::new` records is
bookkeeping no claim reads and is omitted. -/
structure InteractionResponse where
  target_element : Option String
  response_type : ResponseType
  data : List (String × ResponseValue)
deriving Repr, DecidableEq

/-- Interaction metrics (`InteractionMetrics` in the source). -/
structure InteractionMetrics where
  total_events : Nat
  events_per_second : ℚ
  average_response_time : ℚ
  gesture_recognition_time : ℚ
  touch_points_processed : Nat
  mouse_events_processed : Nat
  keyboard_events_processed : Nat
deriving Repr, DecidableEq

/-- Zeroed metrics (`InteractionMetrics::default`). -/
def InteractionMetrics.default : InteractionMetrics :=
  { total_events := 0
    events_per_second := 0
    average_response_time := 0
    gesture_recognition_time := 0
    touch_points_processed := 0
    mouse_events_processed := 0
    keyboard_events_processed := 0 }

/-- Event state machine (`InteractionManager` in the source) restricted to
the state the mouse pipeline touches; the touch, keyboard, gesture and
delegate tables are independent of the mouse claims and are not
modelled. -/
structure InteractionManager where
  interaction_states : List (String × InteractionState)
  mouse_state : MouseState
  performance_metrics : InteractionMetrics
deriving Repr, DecidableEq

/-- Constructor `InteractionManager::new`: no target, no buttons, not
dragging, and — decisive for C7 — `drag_start_position` starts as `None`
(and no code path in the source ever assigns it `Some`). -/
def InteractionManager.new : InteractionManager :=
  { interaction_states := []
    mouse_state :=
      { position := { x := 0, y := 0 }
        buttons := 0
        last_click_time := 0
        click_count := 0
        target_element := none
        dragging := false
        drag_start_position := none }
    performance_metrics := InteractionMetrics.default }

/-- State overwrite `InteractionManager::set_interaction_state`:
`HashMap::insert` of a freshly built state record keyed by element id. -/
def InteractionManager.set_interaction_state (m : InteractionManager)
    (element_id : String) (state_type : InteractionStateType)
    (timestamp : ℚ) : InteractionManager :=
  { m with interaction_states :=
      (m.interaction_states.filter (fun p => p.1 ≠ element_id)) ++
        [(element_id,
          { element_id := element_id
            state_type := state_type
            start_time := timestamp
            last_update := timestamp })] }

/-- Mouse branch `InteractionManager::handle_mouse_event`.  On MouseDown
the target is recorded and transitioned to Pressed; on MouseUp the
previous target goes to Hover and is cleared; on MouseMove, while a
button is held and the mouse is not dragging, a recorded
`drag_start_position` farther than 5 units away (the source compares
`sqrt(dx^2 + dy^2) > 5`, encoded sqrt-free as `dx^2 + dy^2 > 25`) flips
`dragging` and emits DragStart, and any move while dragging emits Drag
with position and movement.  Every path with mouse data bumps
`mouse_events_processed`. -/
def InteractionManager.handle_mouse_event (m : InteractionManager)
    (event : InteractionEvent) :
    List InteractionResponse × InteractionManager :=
  match event.mouse_data with
  | none => ([], m)
  | some mouse_data =>
    let m := { m with mouse_state :=
      { m.mouse_state with
          position := mouse_data.position
          buttons := mouse_data.buttons } }
    let step :=
      match event.event_type with
      | .MouseDown =>
        let m := { m with mouse_state :=
          { m.mouse_state with target_element := event.target_element } }
        match event.target_element with
        | some target =>
          ([({ target_element := some target
               response_type := .StateChanged
               data := [("state", .str "pressed")] } : InteractionResponse)],
           m.set_interaction_state target .Pressed event.timestamp)
        | none => ([], m)
      | .MouseUp =>
        let step :=
          match m.mouse_state.target_element with
          | some target =>
            ([({ target_element := some target
                 response_type := .StateChanged
                 data := [("state", .str "hover")] } : InteractionResponse)],
             m.set_interaction_state target .Hover event.timestamp)
          | none => ([], m)
        (step.1,
         { step.2 with mouse_state :=
            { step.2.mouse_state with target_element := none } })
      | .MouseMove =>
        let step :=
          if 0 < m.mouse_state.buttons ∧ m.mouse_state.dragging = false then
            match m.mouse_state.drag_start_position with
            | some start_pos =>
              let distance_sq :=
                (mouse_data.position.x - start_pos.x) ^ 2 +
                  (mouse_data.position.y - start_pos.y) ^ 2
              if 25 < distance_sq then
                ([({ target_element := event.target_element
                     response_type := .DragStart
                     data := [("start_position", .pos start_pos)] } :
                   InteractionResponse)],
                 { m with mouse_state :=
                    { m.mouse_state with dragging := true } })
              else ([], m)
            | none => ([], m)
          else ([], m)
        if step.2.mouse_state.dragging then
          (step.1 ++
            [({ target_element := event.target_element
                response_type := .Drag
                data := [("position", .pos mouse_data.position),
                         ("movement", .optPos mouse_data.movement)] } :
              InteractionResponse)],
           step.2)
        else step
      | _ => ([], m)
    (step.1,
     { step.2 with performance_metrics :=
        { step.2.performance_metrics with
            mouse_events_processed :=
              step.2.performance_metrics.mouse_events_processed + 1 } })

/-- Folding a stream of mouse events through `handle_mouse_event`
(`process_event` dispatches MouseDown / MouseUp / MouseMove there),
concatenating the emitted responses. -/
def InteractionManager.processMouseEvents (m : InteractionManager) :
    List InteractionEvent → List InteractionResponse × InteractionManager
  | [] => ([], m)
  | ev :: evs =>
    let step := m.handle_mouse_event ev
    let rest := step.2.processMouseEvents evs
    (step.1 ++ rest.1, rest.2)

lemma handle_mouse_event_no_drag (m : InteractionManager)
    (event : InteractionEvent)
    (hd : m.mouse_state.dragging = false)
    (hs : m.mouse_state.drag_start_position = none) :
    (m.handle_mouse_event event).2.mouse_state.dragging = false ∧
    (m.handle_mouse_event event).2.mouse_state.drag_start_position = none ∧
    ∀ r ∈ (m.handle_mouse_event event).1,
      r.response_type ≠ .DragStart ∧ r.response_type ≠ .Drag := by
  unfold InteractionManager.handle_mouse_event
  cases hmd : event.mouse_data with
  | none => simp [hd, hs]
  | some mouse_data =>
    cases hty : event.event_type <;>
      cases htg : event.target_element <;>
        cases htg2 : m.mouse_state.target_element <;>
          simp_all [InteractionManager.set_interaction_state]

lemma processMouseEvents_no_drag (m : InteractionManager)
    (evs : List InteractionEvent)
    (hd : m.mouse_state.dragging = false)
    (hs : m.mouse_state.drag_start_position = none) :
    (m.processMouseEvents evs).2.mouse_state.dragging = false ∧
    (m.processMouseEvents evs).2.mouse_state.drag_start_position = none ∧
    ∀ r ∈ (m.processMouseEvents evs).1,
      r.response_type ≠ .DragStart ∧ r.response_type ≠ .Drag := by
  induction evs generalizing m with
  | nil => exact ⟨hd, hs, by simp [InteractionManager.processMouseEvents]⟩
  | cons ev evs ih =>
    obtain ⟨hd1, hs1, hr1⟩ := handle_mouse_event_no_drag m ev hd hs
    obtain ⟨hd2, hs2, hr2⟩ := ih (m.handle_mouse_event ev).2 hd1 hs1
    refine ⟨hd2, hs2, ?_⟩
    intro r hr
    rw [InteractionManager.processMouseEvents] at hr
    simp only [List.mem_append] at hr
    rcases hr with hr | hr
    · exact hr1 r hr
    · exact hr2 r hr

/-- Mouse-down at the origin with the left button held, targeting `el`. -/
def demoDownEvent : InteractionEvent :=
  { event_type := .MouseDown
    target_element := some "el"
    position := some { x := 0, y := 0 }
    timestamp := 0
    touch_data := none
    mouse_data := some
      { button := .Left
        buttons := 1
        position := { x := 0, y := 0 }
        movement := none
        wheel_delta := none }
    modifiers := ⟨false, false, false, false⟩ }

/-- Mouse-move to (100, 100) with the left button still held — far beyond
any 5-unit drag threshold measured from the mouse-down position. -/
def demoFarMoveEvent : InteractionEvent :=
  { event_type := .MouseMove
    target_element := some "el"
    position := some { x := 100, y := 100 }
    timestamp := 16
    touch_data := none
    mouse_data := some
      { button := .Left
        buttons := 1
        position := { x := 100, y := 100 }
        movement := some { x := 100, y := 100 }
        wheel_delta := none }
    modifiers := ⟨false, false, false, false⟩ }

/-- C7 as the code actually behaves (the claim is a code bug): no run of
mouse events from the initial manager state ever emits a DragStart or
Drag response or sets the dragging flag, because `drag_start_position` is
initialised to `None` and no assignment in the source ever sets it; in
particular a mouse-down at the origin followed by a button-held move of
about 141 units (squared distance 20000 > 25) produces only the Pressed
state-change response, with no DragStart. -/
theorem drag_start_never_emitted :
    (∀ (evs : List InteractionEvent) (r : InteractionResponse),
      r ∈ (InteractionManager.new.processMouseEvents evs).1 →
      r.response_type ≠ .DragStart ∧ r.response_type ≠ .Drag) ∧
    (∀ evs : List InteractionEvent,
      (InteractionManager.new.processMouseEvents evs).2.mouse_state.dragging =
        false ∧
      (InteractionManager.new.processMouseEvents
          evs).2.mouse_state.drag_start_position = none) ∧
    (InteractionManager.new.processMouseEvents
        [demoDownEvent, demoFarMoveEvent]).1 =
      [{ target_element := some "el"
         response_type := .StateChanged
         data := [("state", .str "pressed")] }] ∧
    (25 : ℚ) < (100 - 0) ^ 2 + (100 - 0) ^ 2 := by
  refine ⟨fun evs r hr =>
      (processMouseEvents_no_drag InteractionManager.new evs rfl rfl).2.2 r hr,
    fun evs =>
      ⟨(processMouseEvents_no_drag InteractionManager.new evs rfl rfl).1,
       (processMouseEvents_no_drag InteractionManager.new evs rfl rfl).2.1⟩,
    ?_, by norm_num⟩
  norm_num [InteractionManager.processMouseEvents,
    InteractionManager.handle_mouse_event, InteractionManager.new,
    InteractionManager.set_interaction_state, demoDownEvent, demoFarMoveEvent]

/-- Witness instantiating the universally quantified parts of the C7
theorem on the concrete two-event run. -/
theorem drag_start_never_emitted_witness :
    (({ target_element := some "el"
        response_type := .StateChanged
        data := [("state", .str "pressed")] } :
      InteractionResponse).response_type ≠ ResponseType.DragStart ∧
     ({ target_element := some "el"
        response_type := .StateChanged
        data := [("state", .str "pressed")] } :
      InteractionResponse).response_type ≠ ResponseType.Drag) ∧
    (InteractionManager.new.processMouseEvents
        [demoDownEvent, demoFarMoveEvent]).2.mouse_state.dragging = false :=
  ⟨drag_start_never_emitted.1 [demoDownEvent, demoFarMoveEvent] _
     (by rw [drag_start_never_emitted.2.2.1]; exact List.Mem.head _),
   (drag_start_never_emitted.2.1 [demoDownEvent, demoFarMoveEvent]).1⟩

/-- Gesture kinds (`GestureType` in the source). -/
inductive GestureType where
  | Tap | DoubleTap | LongPress | Pinch | Rotate | Swipe | Pan
deriving Repr, DecidableEq

/-- One touch sample of an in-flight recognition (`GestureSample` in the
source). -/
structure GestureSample where
  timestamp : ℚ
  position : Position
  velocity : Position
  pressure : Option ℚ
deriving Repr, DecidableEq

/-- One in-flight recognition candidate (`GestureRecognition` in the
source). -/
structure GestureRecognition where
  gesture_type : GestureType
  start_time : ℚ
  touch_points : List TouchPoint
  samples : List GestureSample
  confidence : ℚ
deriving Repr, DecidableEq

/-- One classified gesture (`GestureEvent` in the source); the
`properties` map holds the numeric payload in insertion order. -/
structure GestureEvent where
  gesture_type : GestureType
  confidence : ℚ
  start_position : Position
  end_position : Position
  duration : ℚ
  velocity : Position
  properties : List (String × ℚ)
  timestamp : ℚ
deriving Repr, DecidableEq

/-- Touch classifier (`GestureRecognizer` in the source).  The static
`gesture_configs` table is not modelled: it is only read by the
single-touch completion classifier, which no claim exercises, and its
ranges use `f64::INFINITY`, which has no rational counterpart. -/
structure GestureRecognizer where
  active_recognizers : List (String × GestureRecognition)
  gesture_history : List GestureEvent
deriving Repr, DecidableEq

/-- Constructor `GestureRecognizer::new`: no in-flight recognitions and an
empty history. -/
def GestureRecognizer.new : GestureRecognizer :=
  { active_recognizers := [], gesture_history := [] }

/-- Squared planar distance; the source's `calculate_distance` is
`sqrt` of this value, and every comparison against it is encoded
sqrt-free below. -/
def calculate_distance_sq (pos1 pos2 : Position) : ℚ :=
  (pos2.x - pos1.x) ^ 2 + (pos2.y - pos1.y) ^ 2

/-- Exact rational square root: the nonnegative root when the argument is
the square of a rational and 0 otherwise.  The source computes
`f64::sqrt`; every distance a theorem below evaluates is a perfect
square, where this is exact. -/
def ratSqrt (q : ℚ) : ℚ :=
  let n := q.num.toNat.sqrt
  let d := q.den.sqrt
  if 0 ≤ q ∧ n * n = q.num.toNat ∧ d * d = q.den then (n : ℚ) / (d : ℚ) else 0

/-- Stub `GestureRecognizer::extract_distance_from_sample`, verbatim from
the source: "This would extract distance from multi-touch sample data.
For now, return a default value" — it ignores the sample and returns
100. -/
def extract_distance_from_sample (_sample : GestureSample) : ℚ := 100

/-- Two-touch branch `GestureRecognizer::process_multi_touch`.  With
exactly two touches it computes the inter-touch distance and midpoint;
if a multi-touch recognition exists and holds a previous sample, the
scale change is `distance / extract_distance_from_sample(last)` — i.e.
`distance / 100`, not a ratio to the previous sample's actual distance —
and a Pinch event carrying that scale and the absolute distance is
emitted immediately when `|scale_change - 1| > 0.1`; the comparison
`|sqrt(d2)/L - 1| > 1/10` (with `L > 0`) is encoded sqrt-free as
`d2 > (11/10 * L)^2 ∨ d2 < (9/10 * L)^2`.  The midpoint is then pushed as
a new sample; with no existing recognition a fresh one is created. -/
def GestureRecognizer.process_multi_touch (g : GestureRecognizer)
    (touches : List TouchPoint) (timestamp : ℚ) :
    List GestureEvent × GestureRecognizer :=
  let recognition_id := "multi_touch"
  match touches with
  | [touch1, touch2] =>
    let distance_sq := calculate_distance_sq touch1.position touch2.position
    let distance := ratSqrt distance_sq
    let center : Position :=
      { x := (touch1.position.x + touch2.position.x) / 2
        y := (touch1.position.y + touch2.position.y) / 2 }
    let new_sample : GestureSample :=
      { timestamp := timestamp
        position := center
        velocity := { x := 0, y := 0 }
        pressure := none }
    match g.active_recognizers.find? (fun p => p.1 == recognition_id) with
    | some entry =>
      let recognition := entry.2
      let events :=
        match recognition.samples with
        | [] => []
        | s0 :: rest =>
          let last_sample := (s0 :: rest).getLast (List.cons_ne_nil s0 rest)
          let last_distance := extract_distance_from_sample last_sample
          let scale_change := distance / last_distance
          if distance_sq > (11/10 * last_distance) ^ 2 ∨
              distance_sq < (9/10 * last_distance) ^ 2 then
            [({ gesture_type := .Pinch
                confidence := 9/10
                start_position := s0.position
                end_position := center
                duration := timestamp - recognition.start_time
                velocity := { x := 0, y := 0 }
                properties := [("scale", scale_change), ("distance", distance)]
                timestamp := timestamp } : GestureEvent)]
          else []
      let updated := { recognition with
        samples := recognition.samples ++ [new_sample] }
      (events,
       { g with active_recognizers :=
          (g.active_recognizers.map
            (fun p => if p.1 = recognition_id then (p.1, updated) else p)) })
    | none =>
      let recognition : GestureRecognition :=
        { gesture_type := .Pinch
          start_time := timestamp
          touch_points := touches
          samples := [new_sample]
          confidence := 0 }
      ([], { g with active_recognizers :=
          g.active_recognizers ++ [(recognition_id, recognition)] })
  | _ => ([], g)

/-- Staleness purge `GestureRecognizer::clear_completed_recognitions`:
retains a recognition exactly when the wall clock is less than 1000 ms
past its `start_time` — the recognition's creation time, not the time of
its most recent sample. -/
def GestureRecognizer.clear_completed_recognitions (g : GestureRecognizer)
    (now : ℚ) : GestureRecognizer :=
  let timeout : ℚ := 1000
  { g with active_recognizers :=
      g.active_recognizers.filter (fun p => now - p.2.start_time < timeout) }

/-- Two touch points a constant 200 units apart. -/
def demoTouchA : TouchPoint :=
  { identifier := 0, position := { x := 0, y := 0 }, radius := none,
    rotation_angle := none, force := none }

/-- Second touch of the pair, at (200, 0). -/
def demoTouchB : TouchPoint :=
  { identifier := 1, position := { x := 200, y := 0 }, radius := none,
    rotation_angle := none, force := none }

/-- The two-touch sample used by the C8 evaluation. -/
def demoTwoTouches : List TouchPoint := [demoTouchA, demoTouchB]

lemma ratSqrt_40000 : ratSqrt 40000 = 200 := by
  have h : Nat.sqrt 40000 = 200 := by norm_num
  have h2 : Int.toNat 40000 = 40000 := rfl
  rw [ratSqrt]
  norm_num [h2, h]

/-- C8 as the code actually behaves (the claim is a code bug): feeding the
same two touches 200 units apart twice — so the inter-touch distance
changes by exactly 0% between the consecutive multi-touch samples — still
emits a Pinch on the second call, because `extract_distance_from_sample`
is a stub returning the constant 100: the scale is computed as
`distance / 100 = 2`, not as a ratio to the previous sample's actual
distance. -/
theorem pinch_uses_constant_distance :
    (GestureRecognizer.new.process_multi_touch demoTwoTouches 0).1 = [] ∧
    ((GestureRecognizer.new.process_multi_touch demoTwoTouches
        0).2.process_multi_touch demoTwoTouches 100).1 =
      [{ gesture_type := .Pinch
         confidence := 9/10
         start_position := { x := 100, y := 0 }
         end_position := { x := 100, y := 0 }
         duration := 100
         velocity := { x := 0, y := 0 }
         properties := [("scale", 2), ("distance", 200)]
         timestamp := 100 }] ∧
    calculate_distance_sq demoTouchA.position demoTouchB.position = 40000 ∧
    ratSqrt (calculate_distance_sq demoTouchA.position demoTouchB.position) =
      200 := by
  have hstep1 : GestureRecognizer.new.process_multi_touch demoTwoTouches 0 =
      ([], { active_recognizers :=
              [("multi_touch",
                { gesture_type := .Pinch
                  start_time := 0
                  touch_points := demoTwoTouches
                  samples := [{ timestamp := 0
                                position := { x := 100, y := 0 }
                                velocity := { x := 0, y := 0 }
                                pressure := none }]
                  confidence := 0 })]
             gesture_history := [] }) := by
    norm_num [GestureRecognizer.process_multi_touch, GestureRecognizer.new,
      demoTwoTouches, demoTouchA, demoTouchB, calculate_distance_sq]
  have hdist : calculate_distance_sq demoTouchA.position demoTouchB.position =
      40000 := by
    norm_num [calculate_distance_sq, demoTouchA, demoTouchB]
  refine ⟨by rw [hstep1], ?_, hdist, by rw [hdist]; exact ratSqrt_40000⟩
  rw [hstep1]
  norm_num [GestureRecognizer.process_multi_touch, demoTwoTouches,
    demoTouchA, demoTouchB, calculate_distance_sq, ratSqrt_40000,
    extract_distance_from_sample, List.find?]

/-- In-flight recognition started at wall clock 0 whose most recent sample
arrived at 1400 ms — still actively receiving samples. -/
def demoLongRecognition : GestureRecognition :=
  { gesture_type := .Pan
    start_time := 0
    touch_points := []
    samples :=
      [{ timestamp := 0, position := { x := 0, y := 0 },
         velocity := { x := 0, y := 0 }, pressure := none },
       { timestamp := 1400, position := { x := 50, y := 0 },
         velocity := { x := 0, y := 0 }, pressure := none }]
    confidence := 1 }

/-- Recognizer tracking only `demoLongRecognition`. -/
def demoLongRecognizer : GestureRecognizer :=
  { active_recognizers := [("single_0", demoLongRecognition)]
    gesture_history := [] }

/-- C9 as the code actually behaves (the claim is a code bug):
`clear_completed_recognitions` filters on `current_time - start_time`,
not on the age of the most recent sample.  At wall clock 1500, a
recognition started at 0 whose latest sample is only 100 ms old (well
within the 1000 ms window, so the claim says it must be retained) is
nevertheless purged, because 1500 ms have passed since its start. -/
theorem cleanup_purges_by_start_time :
    (demoLongRecognizer.clear_completed_recognitions
        1500).active_recognizers = [] ∧
    (demoLongRecognition.samples.getLast?.map (fun s => s.timestamp)) =
      some 1400 ∧
    (1500 : ℚ) - 1400 < 1000 ∧
    (1000 : ℚ) ≤ 1500 - demoLongRecognition.start_time := by
  refine ⟨?_, by norm_num [demoLongRecognition], by norm_num,
    by norm_num [demoLongRecognition]⟩
  norm_num [GestureRecognizer.clear_completed_recognitions,
    demoLongRecognizer, demoLongRecognition, List.filter]
